import Mathlib

/-!
Verification development for the ferry_map chat components.

The repository contains two sibling implementations of the AI chat screen:
a baseline variant (namespace `Chat` below) and a location-aware variant
(namespace `LocChat`).  The JavaScript string primitives they rely on
(`toLowerCase`, `split(/\s+/)`, `replace(/[^a-z0-9]/g, '')`, `parseInt`,
`Set` deduplication, `includes`, `trim`) are modelled first, restricted to
the ASCII fragment the data actually exercises.
-/

/-- ASCII model of JavaScript `toLowerCase` on a single character. -/
def jsToLowerChar (c : Char) : Char :=
  if 65 ≤ c.toNat && c.toNat ≤ 90 then Char.ofNat (c.toNat + 32) else c

/-- ASCII model of JavaScript `toUpperCase` on a single character. -/
def jsToUpperChar (c : Char) : Char :=
  if 97 ≤ c.toNat && c.toNat ≤ 122 then Char.ofNat (c.toNat - 32) else c

/-- ASCII model of JavaScript `String.prototype.toLowerCase`. -/
def jsToLower (s : String) : String := ⟨s.data.map jsToLowerChar⟩

/-- Characters matched by the JavaScript regex class `\s` (ASCII part:
space, tab, newline, vertical tab, form feed, carriage return), tested by
code point. -/
def isWsChar (c : Char) : Bool :=
  c.toNat = 32 || c.toNat = 9 || c.toNat = 10 || c.toNat = 11 || c.toNat = 12 || c.toNat = 13

/-- Model of JavaScript `s.split(/\s+/)` on character lists: maximal
whitespace runs separate tokens; a leading run contributes one empty
token, a trailing run one trailing empty token, and `""` splits to
`[""]`.  The fuel argument (always instantiated with more than the
length of the list) keeps the definition structurally recursive so that
it evaluates inside the kernel. -/
def splitWsFuel : Nat → List Char → List (List Char)
  | 0, cs => [cs]
  | fuel + 1, cs =>
    let tok := cs.takeWhile (fun c => !isWsChar c)
    match cs.drop tok.length with
    | [] => [tok]
    | rest@(_ :: _) => tok :: splitWsFuel fuel (rest.dropWhile isWsChar)

/-- Model of JavaScript `s.split(/\s+/)`. -/
def jsSplitWs (s : String) : List String :=
  (splitWsFuel (s.data.length + 1) s.data).map fun l => ⟨l⟩

/-- Lowercase-alphanumeric test: the character class `[a-z0-9]`, tested by
code point (`a`-`z` is 97-122, `0`-`9` is 48-57). -/
def isLowerAlnum (c : Char) : Bool :=
  (97 ≤ c.toNat && c.toNat ≤ 122) || (48 ≤ c.toNat && c.toNat ≤ 57)

/-- Model of JavaScript `word.replace(/[^a-z0-9]/g, '')`. -/
def stripNonAlnum (s : String) : String := ⟨s.data.filter isLowerAlnum⟩

/-- Decimal digit test, by code point. -/
def isDigitChar (c : Char) : Bool := 48 ≤ c.toNat && c.toNat ≤ 57

/-- Hexadecimal digit test (as accepted by `parseInt` after a `0x` prefix):
digits, `a`-`f` (97-102), `A`-`F` (65-70). -/
def isHexDigitChar (c : Char) : Bool :=
  isDigitChar c || (97 ≤ c.toNat && c.toNat ≤ 102) || (65 ≤ c.toNat && c.toNat ≤ 70)

/-- The digit-reading stage of `parseInt` after whitespace and sign are
consumed: `NaN` (true) on the empty remainder; after a `0x`/`0X` prefix,
`NaN` exactly when no hexadecimal digit follows; otherwise `NaN` exactly
when the first character is not a decimal digit. -/
def jsParseIntTail : List Char → Bool
  | [] => true
  | c0 :: rest =>
    if c0.toNat = 48 then
      match rest with
      | [] => !isDigitChar c0
      | c1 :: rest2 =>
        if c1.toNat = 120 || c1.toNat = 88 then
          match rest2 with
          | [] => true
          | c :: _ => !isHexDigitChar c
        else !isDigitChar c0
    else !isDigitChar c0

/-- Model of JavaScript `isNaN(parseInt(s))` with no radix argument:
`parseInt` skips leading whitespace and one optional sign (`+` is 43,
`-` is 45), then hands the remainder to the digit-reading stage. -/
def jsParseIntIsNaN (s : String) : Bool :=
  match s.data.dropWhile isWsChar with
  | [] => jsParseIntTail []
  | c :: rest =>
    if c.toNat = 43 || c.toNat = 45 then jsParseIntTail rest
    else jsParseIntTail (c :: rest)

/-- Order-preserving deduplication keeping first occurrences, as
performed by `Array.from(new Set(xs))` in JavaScript. -/
def jsDedupAux (seen : List String) : List String → List String
  | [] => []
  | a :: l => if seen.contains a then jsDedupAux seen l else a :: jsDedupAux (a :: seen) l

/-- Model of JavaScript `Array.from(new Set(xs))`. -/
def jsDedup (l : List String) : List String := jsDedupAux [] l

/-- Boolean infix (contiguous-substring) test on character lists. -/
def listIsInfixB (needle hay : List Char) : Bool :=
  hay.tails.any fun t => needle.isPrefixOf t

/-- Model of JavaScript `hay.includes(needle)`. -/
def jsIncludes (hay needle : String) : Bool := listIsInfixB needle.data hay.data

/-- Model of JavaScript `String.prototype.trim` (ASCII whitespace). -/
def jsTrim (s : String) : String :=
  ⟨((s.data.dropWhile isWsChar).reverse.dropWhile isWsChar).reverse⟩

/-- Model of the JavaScript test `word[0] === word[0].toUpperCase()`.
Both call sites guard with `word.length > 1` first, so the empty case is
unreachable; it is mapped to `false`. -/
def firstCharUpperEq (s : String) : Bool :=
  match s.data with
  | [] => false
  | c :: _ => jsToUpperChar c == c

namespace Chat

/-- Fixed domain vocabulary of `getKeywords` in the baseline chat component. -/
def specificTerms : List String :=
  ["ikorodu", "apapa", "badagry", "cms", "falomo", "lagos island",
   "lekki", "victoria island", "eti-osa", "fare", "schedule", "route",
   "jetty", "departure", "hour", "time", "ebute", "ero", "ibb"]

/-- The tokens of `getKeywords`: lowercase the text, split on whitespace,
strip non-alphanumeric characters, keep tokens longer than 2 characters. -/
def strippedTokens (text : String) : List String :=
  ((jsSplitWs (jsToLower text)).map stripNonAlnum).filter fun w => w.length > 2

/-- The retention filter of `getKeywords`:
`words.filter(word => specificTerms.includes(word) || isNaN(parseInt(word)))`. -/
def firstPassKeywords (text : String) : List String :=
  (strippedTokens text).filter fun w => specificTerms.contains w || jsParseIntIsNaN w

/-- The capitalized-word pass of `getKeywords`: whitespace tokens of the
original-case text whose length exceeds 1 and whose first character equals
its own uppercase form, each lowercased. -/
def capitalizedTokens (text : String) : List String :=
  ((jsSplitWs text).filter fun w => w.length > 1 && firstCharUpperEq w).map jsToLower

/-- `getKeywords` from the baseline chat component. -/
def getKeywords (text : String) : List String :=
  (jsDedup (firstPassKeywords text ++ capitalizedTokens text)).take 10

end Chat

namespace LocChat

/-- Fixed domain vocabulary of `getKeywords` in the location-aware chat
component (the baseline list plus four proximity terms). -/
def specificTerms : List String :=
  ["ikorodu", "apapa", "badagry", "cms", "falomo", "lagos island",
   "lekki", "victoria island", "eti-osa", "fare", "schedule", "route",
   "jetty", "departure", "hour", "time", "ebute", "ero", "ibb",
   "nearest", "near", "close", "closest"]

/-- Tokenisation stage of `getKeywords` (location-aware variant). -/
def strippedTokens (text : String) : List String :=
  ((jsSplitWs (jsToLower text)).map stripNonAlnum).filter fun w => w.length > 2

/-- Retention filter of `getKeywords` (location-aware variant). -/
def firstPassKeywords (text : String) : List String :=
  (strippedTokens text).filter fun w => specificTerms.contains w || jsParseIntIsNaN w

/-- Capitalized-word pass of `getKeywords` (location-aware variant). -/
def capitalizedTokens (text : String) : List String :=
  ((jsSplitWs text).filter fun w => w.length > 1 && firstCharUpperEq w).map jsToLower

/-- `getKeywords` from the location-aware chat component. -/
def getKeywords (text : String) : List String :=
  (jsDedup (firstPassKeywords text ++ capitalizedTokens text)).take 10

/-- `isNearestJettyQuery` from the location-aware chat component. -/
def isNearestJettyQuery (text : String) : Bool :=
  let textLower := jsToLower text
  let nearbyKeywords := ["nearest", "near", "close", "closest", "around", "nearby"]
  let jettyKeywords := ["jetty", "jetties", "terminal", "stop", "station"]
  (nearbyKeywords.any fun nk => jsIncludes textLower nk) &&
    (jettyKeywords.any fun jk => jsIncludes textLower jk)

end LocChat

/-!
Data model.  The scoper inspects `Object.values(record.properties)` and
tests only string-typed values, so a property value is modelled as either
a string or an opaque non-string value.  GeoJSON coordinates are
`[longitude, latitude]`; the fields `c0`/`c1` model `coordinates[0]` and
`coordinates[1]`.
-/

/-- A property value as seen by the scoper. -/
inductive JsVal where
  | str (s : String)
  | other
deriving DecidableEq

/-- The geometry of a jetty feature. -/
structure Geometry where
  c0 : ℝ
  c1 : ℝ

/-- A jetty feature: `properties` models `Object.values(jetty.properties)`. -/
structure Jetty where
  properties : List JsVal
  geometry : Geometry

/-- One operator sub-structure of a route (`Public` or `Private` details),
modelling `Object.values` of that object. -/
structure OperatorDetails where
  values : List JsVal

/-- The `operator` property of a route. -/
structure RouteOperator where
  Public : Option OperatorDetails
  Private : Option OperatorDetails

/-- Route properties: `values` models `Object.values(route.properties)`
(the operator object itself appears there as a non-string value), and
`operator` models the `operator` property accessed by optional chaining. -/
structure RouteProperties where
  values : List JsVal
  operator : Option RouteOperator

/-- A route feature. -/
structure Route where
  properties : RouteProperties

/-- The loaded dataset: `jetties.features` and `routes.features`. -/
structure FerryData where
  jetties : List Jetty
  routes : List Route

/-- Result shape of `filterDataByKeywords`. -/
structure ScopedData where
  jetties : List Jetty
  routes : List Route
  isSample : Bool

/-- Whether one property value matches any keyword:
`typeof value === 'string' && keywords.some(kw => value.toLowerCase().includes(kw))`. -/
def valMatches (keywords : List String) : JsVal → Bool
  | .str v => keywords.any fun kw => jsIncludes (jsToLower v) kw
  | .other => false

/-- The jetty filter predicate of `filterDataByKeywords` (identical in both
chat components). -/
def jettyMatches (keywords : List String) (j : Jetty) : Bool :=
  j.properties.any (valMatches keywords)

/-- The route filter predicate of `filterDataByKeywords` (identical in both
chat components): top-level string properties, then the optional
`operator.Public` and `operator.Private` sub-structures. -/
def routeMatches (keywords : List String) (r : Route) : Bool :=
  if r.properties.values.any (valMatches keywords) then true
  else
    let publicDetails := r.properties.operator.bind fun op => op.Public
    let privateDetails := r.properties.operator.bind fun op => op.Private
    if (match publicDetails with
        | some d => d.values.any (valMatches keywords)
        | none => false) then true
    else if (match privateDetails with
        | some d => d.values.any (valMatches keywords)
        | none => false) then true
    else false

namespace Chat

/-- The result cap of the keyword-filtered path in the baseline component. -/
def MAX_ITEMS : Nat := 15

/-- `filterDataByKeywords` from the baseline chat component. -/
def filterDataByKeywords (data : FerryData) (keywords : List String) : ScopedData :=
  if keywords.length = 0 then
    { jetties := data.jetties.take 3, routes := data.routes.take 3, isSample := true }
  else
    let filteredJetties := data.jetties.filter (jettyMatches keywords)
    let filteredRoutes := data.routes.filter (routeMatches keywords)
    { jetties := filteredJetties.take MAX_ITEMS,
      routes := filteredRoutes.take MAX_ITEMS,
      isSample := false }

end Chat

namespace LocChat

/-- The result cap of the keyword-filtered path in the location-aware component. -/
def MAX_ITEMS : Nat := 8

/-- `filterDataByKeywords` from the location-aware chat component. -/
def filterDataByKeywords (data : FerryData) (keywords : List String) : ScopedData :=
  if keywords.length = 0 then
    { jetties := data.jetties.take 3, routes := data.routes.take 3, isSample := true }
  else
    let filteredJetties := data.jetties.filter (jettyMatches keywords)
    let filteredRoutes := data.routes.filter (routeMatches keywords)
    { jetties := filteredJetties.take MAX_ITEMS,
      routes := filteredRoutes.take MAX_ITEMS,
      isSample := false }

end LocChat

/-!
Markdown-subset parser.  Both chat components define `parseMarkdown`
identically up to regex-object freshness (the baseline reuses module-level
global regexes, whose `lastIndex` is reset to 0 whenever `exec` fails, so
the observable behaviour coincides with the location-aware variant's
fresh-regex version).  The two regexes have no backtracking: the negated
character classes force each capture to end at the first closing
delimiter, so matching is deterministic.
-/

/-- A parsed segment of an assistant message. -/
inductive TextSegment where
  | text (content : String)
  | bold (content : String)
  | link (content : String) (url : String)
deriving DecidableEq, Repr

/-- The `content` field of a segment. -/
def TextSegment.content : TextSegment → String
  | .text c => c
  | .bold c => c
  | .link c _ => c

/-- Whether a segment has type `'text'`. -/
def TextSegment.isText : TextSegment → Bool
  | .text _ => true
  | _ => false

/-- Match the link regex `\[([^\]]+)\]\(([^)]+)\)` anchored at the head of
the character list, returning label, url and the remainder. -/
def linkMatchAt (cs : List Char) : Option (List Char × List Char × List Char) :=
  match cs with
  | '[' :: rest =>
    let label := rest.takeWhile fun c => c ≠ ']'
    if label.isEmpty then none
    else
      match rest.drop label.length with
      | ']' :: '(' :: rest2 =>
        let url := rest2.takeWhile fun c => c ≠ ')'
        if url.isEmpty then none
        else
          match rest2.drop url.length with
          | ')' :: rest3 => some (label, url, rest3)
          | _ => none
      | _ => none
  | _ => none

/-- Leftmost link match: the text before the match, label, url, remainder. -/
def findLinkMatch : List Char → Option (List Char × List Char × List Char × List Char)
  | [] => none
  | c :: cs =>
    match linkMatchAt (c :: cs) with
    | some (label, url, rest) => some ([], label, url, rest)
    | none =>
      match findLinkMatch cs with
      | some (pre, label, url, rest) => some (c :: pre, label, url, rest)
      | none => none

/-- The `while ((match = linkRegex.exec(...)))` loop over one text segment:
emit the plain text before each match, then the link segment, then continue
after the match; finally emit the remaining plain text if non-empty.  Fuel
(always instantiated above the input length) keeps recursion structural. -/
def linkScanFuel : Nat → List Char → List TextSegment
  | 0, cs => if cs.isEmpty then [] else [.text ⟨cs⟩]
  | fuel + 1, cs =>
    match findLinkMatch cs with
    | none => if cs.isEmpty then [] else [.text ⟨cs⟩]
    | some (pre, label, url, rest) =>
      (if pre.isEmpty then [] else [.text ⟨pre⟩]) ++
        [.link ⟨label⟩ ⟨url⟩] ++ linkScanFuel fuel rest

/-- Match the bold regex `\*\*([^\*]+)\*\*` anchored at the head. -/
def boldMatchAt (cs : List Char) : Option (List Char × List Char) :=
  match cs with
  | '*' :: '*' :: rest =>
    let content := rest.takeWhile fun c => c ≠ '*'
    if content.isEmpty then none
    else
      match rest.drop content.length with
      | '*' :: '*' :: rest2 => some (content, rest2)
      | _ => none
  | _ => none

/-- Leftmost bold match: text before the match, content, remainder. -/
def findBoldMatch : List Char → Option (List Char × List Char × List Char)
  | [] => none
  | c :: cs =>
    match boldMatchAt (c :: cs) with
    | some (content, rest) => some ([], content, rest)
    | none =>
      match findBoldMatch cs with
      | some (pre, content, rest) => some (c :: pre, content, rest)
      | none => none

/-- The bold-regex scanning loop over one text segment. -/
def boldScanFuel : Nat → List Char → List TextSegment
  | 0, cs => if cs.isEmpty then [] else [.text ⟨cs⟩]
  | fuel + 1, cs =>
    match findBoldMatch cs with
    | none => if cs.isEmpty then [] else [.text ⟨cs⟩]
    | some (pre, content, rest) =>
      (if pre.isEmpty then [] else [.text ⟨pre⟩]) ++
        [.bold ⟨content⟩] ++ boldScanFuel fuel rest

/-- First pass: split a text segment on link matches; other segments pass
through unchanged. -/
def linkPassSeg : TextSegment → List TextSegment
  | .text content => linkScanFuel (content.data.length + 1) content.data
  | seg => [seg]

/-- Second pass: split a text segment on bold matches. -/
def boldPassSeg : TextSegment → List TextSegment
  | .text content => boldScanFuel (content.data.length + 1) content.data
  | seg => [seg]

/-- `parseMarkdown` from the chat components: links first, then bold, then
drop text segments that trim to the empty string. -/
def parseMarkdown (text : String) : List TextSegment :=
  let segments : List TextSegment := [.text text]
  let afterLinks := (segments.map linkPassSeg).flatten
  let afterBold := (afterLinks.map boldPassSeg).flatten
  afterBold.filter fun s => (jsTrim s.content != "") || !s.isText

/-!
Geospatial part of the location-aware chat component.  The JavaScript
computes with IEEE doubles; the model uses real numbers, with
`Math.atan2` modelled by its usual piecewise definition (`atan2 0 0 = 0`,
as in JavaScript).
-/

/-- The device location. -/
structure UserLocation where
  latitude : ℝ
  longitude : ℝ

/-- A jetty annotated with its distance: models the spread
`{ ...jetty, distance }`, so `base` carries every original field. -/
structure JettyWithDistance where
  base : Jetty
  distance : ℝ

/-- Piecewise model of JavaScript `Math.atan2 y x`. -/
noncomputable def atan2 (y x : ℝ) : ℝ :=
  if 0 < x then Real.arctan (y / x)
  else if x < 0 then
    (if 0 ≤ y then Real.arctan (y / x) + Real.pi else Real.arctan (y / x) - Real.pi)
  else if 0 < y then Real.pi / 2
  else if y < 0 then -(Real.pi / 2)
  else 0

namespace LocChat

/-- `calculateDistance` from the location-aware chat component: haversine
great-circle distance with Earth radius 6371 km. -/
noncomputable def calculateDistance (lat1 lon1 lat2 lon2 : ℝ) : ℝ :=
  let R : ℝ := 6371
  let dLat := (lat2 - lat1) * Real.pi / 180
  let dLon := (lon2 - lon1) * Real.pi / 180
  let a :=
    Real.sin (dLat / 2) * Real.sin (dLat / 2) +
      Real.cos (lat1 * Real.pi / 180) * Real.cos (lat2 * Real.pi / 180) *
        Real.sin (dLon / 2) * Real.sin (dLon / 2)
  let c := 2 * atan2 (Real.sqrt a) (Real.sqrt (1 - a))
  R * c

/-- The body of the `jetties.map` call in `findNearestJetties`: annotate a
jetty with its distance from the user (`coordinates[1]` is the latitude,
`coordinates[0]` the longitude). -/
noncomputable def annotateWithDistance (userLocation : UserLocation) (jetty : Jetty) :
    JettyWithDistance :=
  { base := jetty
    distance := calculateDistance userLocation.latitude userLocation.longitude
      jetty.geometry.c1 jetty.geometry.c0 }

/-- The comparator `(a, b) => a.distance - b.distance` as an ordering test. -/
noncomputable def distLE (a b : JettyWithDistance) : Bool :=
  decide (a.distance ≤ b.distance)

/-- The default value of the `count` parameter of `findNearestJetties`. -/
def findNearestJettiesDefaultCount : Nat := 3

/-- `findNearestJetties` from the location-aware chat component:
annotate, sort ascending by distance with JavaScript's stable
`Array.prototype.sort`, and slice to `count` items. -/
noncomputable def findNearestJetties (userLocation : UserLocation) (jetties : List Jetty)
    (count : Nat) : List JettyWithDistance :=
  ((jetties.map (annotateWithDistance userLocation)).mergeSort distLE).take count

/-- The data path of `handleNearestJettyQuery` once a location fix and the
dataset are available: it requests the 5 nearest jetties (the permission
prompting and system notices around it are UI effects). -/
noncomputable def handleNearestJettyQuery (userLocation : UserLocation)
    (ferryData : FerryData) : List JettyWithDistance :=
  findNearestJetties userLocation ferryData.jetties 5

end LocChat

/-!
State model of the baseline component's `sendMessage`.  The network fetch
is modelled by passing the parsed JSON response as an argument; message
ids and timestamps (`Date.now`) are effects outside the model, so a
transcript entry is its text plus its author flag.
-/

/-- A transcript entry. -/
structure Message where
  text : String
  isUser : Bool
deriving DecidableEq

/-- One part of a candidate's content. -/
structure ResponsePart where
  text : Option String

/-- The `content` object of a candidate. -/
structure ResponseContent where
  parts : List ResponsePart

/-- One entry of `data.candidates`. -/
structure Candidate where
  content : Option ResponseContent
  finishReason : Option String

/-- The `error` object of a generation-service response. -/
structure ApiError where
  message : Option String

/-- A parsed generation-service JSON response. -/
structure ApiResponse where
  error : Option ApiError
  candidates : List Candidate

/-- The component state touched by `sendMessage`. -/
structure ChatState where
  messages : List Message
  inputText : String
  loading : Bool
  ferryData : Option FerryData

namespace Chat

/-- The optional chain `data.candidates?.[0]?.content?.parts?.[0]?.text`. -/
def aiResponseText (data : ApiResponse) : Option String :=
  ((data.candidates.head?.bind fun c => c.content).bind fun c => c.parts.head?).bind
    fun p => p.text

/-- The response-handling block of `sendMessage` (lines after the fetch):
a structured error throws first, then present text is the reply, then a
safety block throws, then the generic invalid-response error throws.
`Except.error` carries the thrown `Error`'s message. -/
def processResponse (data : ApiResponse) : Except String String :=
  match data.error with
  | some err =>
    .error ("Gemini API Error: " ++ err.message.getD "An unknown API error occurred.")
  | none =>
    match aiResponseText data with
    | some t => .ok t
    | none =>
      if (data.candidates.head?.bind fun c => c.finishReason) = some "SAFETY" then
        .error "AI response was blocked due to safety settings."
      else
        .error ("Invalid or incomplete response from AI. Finish Reason: " ++
          ((data.candidates.head?.bind fun c => c.finishReason).getD "Unknown") ++ ".")

/-- The failure transcript entry built in the `catch` block. -/
def errorReplyMessage (errMsg : String) : Message :=
  { text := "Sorry, I can\x27t answer right now. Error: " ++ errMsg ++ " 🙏"
    isUser := false }

/-- State transition of `sendMessage`, with the generation-service
response passed in as the result of the awaited fetch.  The guard mirrors
`if (!inputText.trim() || loading || !ferryData) return;`; afterwards the
user message is appended, the input cleared, the in-progress flag raised,
and the response mapped to an assistant reply or a failure entry, with
the flag cleared in `finally`. -/
def sendMessage (st : ChatState) (resp : ApiResponse) : ChatState :=
  if jsTrim st.inputText = "" || st.loading || st.ferryData.isNone then st
  else
    let userMessage : Message := { text := st.inputText, isUser := true }
    let st1 : ChatState :=
      { st with messages := st.messages ++ [userMessage], inputText := "", loading := true }
    match processResponse resp with
    | .ok t =>
      { st1 with messages := st1.messages ++ [{ text := t, isUser := false }], loading := false }
    | .error m =>
      { st1 with messages := st1.messages ++ [errorReplyMessage m], loading := false }

end Chat

/-!
Spec-side definitions.  These follow the specification's words and are
compared against the definitions translated from the code.
-/

/-- The proximity-intent vocabulary named by the spec's classifier rule. -/
def proximityIntentTerms : List String :=
  ["nearest", "near", "close", "closest", "around", "nearby"]

/-- The jetty-referent vocabulary named by the spec's classifier rule. -/
def jettyReferentTerms : List String :=
  ["jetty", "jetties", "terminal", "stop", "station"]

/-- Spec-side classifier rule: the lowercased text contains at least one
proximity-intent term and at least one jetty-referent term as substrings,
with no order or token-boundary requirement. -/
def proximityQuerySpec (text : String) : Prop :=
  (∃ t ∈ proximityIntentTerms, jsIncludes (jsToLower text) t = true) ∧
    (∃ t ∈ jettyReferentTerms, jsIncludes (jsToLower text) t = true)

/-- Spec-side notion of a purely numeric token: non-empty and consisting
of decimal digits only. -/
def isPurelyNumeric (s : String) : Bool :=
  !s.isEmpty && s.data.all isDigitChar

/-!
Theorems for the claims.
-/

/-- C4: the query classifier returns true exactly when the lowercased text
contains a proximity-intent term and a jetty-referent term as substrings;
the nearest-jetty sample query classifies as a proximity query and the
fare query does not. -/
theorem C4_isNearestJettyQuery_substring_rule :
    (∀ text : String, LocChat.isNearestJettyQuery text = true ↔ proximityQuerySpec text) ∧
    LocChat.isNearestJettyQuery "What\x27s the nearest jetty to me?" = true ∧
    LocChat.isNearestJettyQuery "What\x27s the fare to CMS?" = false := by
  refine ⟨fun text => ?_, by decide, by decide⟩
  simp [LocChat.isNearestJettyQuery, proximityQuerySpec, proximityIntentTerms,
    jettyReferentTerms, List.any_eq_true]

/-- C6: on the empty keyword list the Data Scoper returns the first three
jetties and first three routes of the dataset in natural order, labelled
as a sample, so the result counts are `min 3 N` and `min 3 M`; this holds
in both scoper variants. -/
theorem C6_empty_keywords_returns_sample (data : FerryData) :
    Chat.filterDataByKeywords data [] =
      { jetties := data.jetties.take 3, routes := data.routes.take 3, isSample := true } ∧
    (Chat.filterDataByKeywords data []).jetties.length = min 3 data.jetties.length ∧
    (Chat.filterDataByKeywords data []).routes.length = min 3 data.routes.length ∧
    LocChat.filterDataByKeywords data [] =
      { jetties := data.jetties.take 3, routes := data.routes.take 3, isSample := true } := by
  simp [Chat.filterDataByKeywords, LocChat.filterDataByKeywords]

/-- C7: parsing the sample string yields exactly the four expected
segments, in left-to-right order. -/
theorem C7_parseMarkdown_sample_string :
    parseMarkdown "Visit **Ebute Ero** via [this link](https://x.test)" =
      [.text "Visit ", .bold "Ebute Ero", .text " via ",
       .link "this link" "https://x.test"] := by
  decide

/-- C9: the haversine distance with Earth radius 6371 km is a symmetric
function of the two coordinate pairs, and the distance from a point to
itself is exactly zero in the real-valued model. -/
theorem C9_calculateDistance_symm_self_zero :
    (∀ lat1 lon1 lat2 lon2 : ℝ,
      LocChat.calculateDistance lat1 lon1 lat2 lon2 =
        LocChat.calculateDistance lat2 lon2 lat1 lon1) ∧
    (∀ lat lon : ℝ, LocChat.calculateDistance lat lon lat lon = 0) := by
  constructor
  · intro lat1 lon1 lat2 lon2
    have hs : ∀ u v : ℝ,
        Real.sin ((u - v) * Real.pi / 180 / 2) = -Real.sin ((v - u) * Real.pi / 180 / 2) := by
      intro u v
      rw [show (u - v) * Real.pi / 180 / 2 = -((v - u) * Real.pi / 180 / 2) by ring,
        Real.sin_neg]
    simp only [LocChat.calculateDistance]
    rw [hs lat2 lat1, hs lon2 lon1]
    ring_nf
  · intro lat lon
    simp only [LocChat.calculateDistance, sub_self, zero_mul, zero_div, Real.sin_zero,
      mul_zero, zero_add, add_zero, Real.sqrt_zero, sub_zero, Real.sqrt_one]
    rw [atan2, if_pos (by norm_num : (0:ℝ) < 1)]
    simp [Real.arctan_zero]

/-- A concrete jetty used to instantiate hypotheses of proved theorems. -/
noncomputable def sampleJetty : Jetty :=
  { properties := [.str "Ikorodu Jetty", .other], geometry := { c0 := 3, c1 := 6 } }

/-- A concrete route used to instantiate hypotheses of proved theorems. -/
def sampleRoute : Route :=
  { properties :=
      { values := [.str "CMS to Apapa", .other]
        operator := some { Public := some { values := [.str "500 naira"] }, Private := none } } }

/-- A concrete dataset used to instantiate hypotheses of proved theorems. -/
noncomputable def sampleData : FerryData :=
  { jetties := [sampleJetty], routes := [sampleRoute] }

/-- C5: with a non-empty keyword list under which no jetty and no route
matches, both Data Scoper variants return empty lists labelled as
filtered (`isSample = false`), not as a sample. -/
theorem C5_no_match_returns_empty_filtered (data : FerryData) (keywords : List String)
    (hne : keywords ≠ [])
    (hj : ∀ j ∈ data.jetties, jettyMatches keywords j = false)
    (hr : ∀ r ∈ data.routes, routeMatches keywords r = false) :
    Chat.filterDataByKeywords data keywords =
      { jetties := [], routes := [], isSample := false } ∧
    LocChat.filterDataByKeywords data keywords =
      { jetties := [], routes := [], isSample := false } := by
  have hlen : ¬ keywords.length = 0 := by simpa [List.length_eq_zero] using hne
  have hjf : data.jetties.filter (jettyMatches keywords) = [] :=
    List.filter_eq_nil_iff.mpr (by intro a ha; simp [hj a ha])
  have hrf : data.routes.filter (routeMatches keywords) = [] :=
    List.filter_eq_nil_iff.mpr (by intro a ha; simp [hr a ha])
  constructor
  · simp [Chat.filterDataByKeywords, hlen, hjf, hrf]
  · simp [LocChat.filterDataByKeywords, hlen, hjf, hrf]

/-- Witness for C5 at a concrete dataset and keyword list. -/
theorem C5_no_match_returns_empty_filtered_witness :
    (["zzz"] : List String) ≠ [] ∧
    (∀ j ∈ sampleData.jetties, jettyMatches ["zzz"] j = false) ∧
    (∀ r ∈ sampleData.routes, routeMatches ["zzz"] r = false) ∧
    (Chat.filterDataByKeywords sampleData ["zzz"] =
        { jetties := [], routes := [], isSample := false } ∧
      LocChat.filterDataByKeywords sampleData ["zzz"] =
        { jetties := [], routes := [], isSample := false }) :=
  ⟨by decide, by decide, by decide,
    C5_no_match_returns_empty_filtered sampleData ["zzz"] (by decide) (by decide) (by decide)⟩

/-- C8: when the generation service's response carries a structured error
with message text "quota exceeded", `sendMessage` appends the user entry
and an assistant-authored failure entry whose text contains the service's
error message, and the in-progress flag ends cleared. -/
theorem C8_structured_error_surfaces_message (st : ChatState) (resp : ApiResponse)
    (hinput : jsTrim st.inputText ≠ "")
    (hload : st.loading = false)
    (hdata : st.ferryData.isNone = false)
    (herr : resp.error = some { message := some "quota exceeded" }) :
    ∃ m : Message,
      (Chat.sendMessage st resp).messages =
        st.messages ++ [{ text := st.inputText, isUser := true }, m] ∧
      m.isUser = false ∧
      jsIncludes m.text "quota exceeded" = true ∧
      (Chat.sendMessage st resp).loading = false := by
  refine ⟨Chat.errorReplyMessage "Gemini API Error: quota exceeded", ?_, rfl, by decide, ?_⟩
  · simp [Chat.sendMessage, hinput, hload, hdata, Chat.processResponse, herr,
      Chat.errorReplyMessage]
  · simp [Chat.sendMessage, hinput, hload, hdata, Chat.processResponse, herr]

/-- Witness for C8 at a concrete state and response. -/
theorem C8_structured_error_surfaces_message_witness :
    jsTrim "hello" ≠ "" ∧
    ∃ m : Message,
      (Chat.sendMessage
          { messages := [], inputText := "hello", loading := false,
            ferryData := some { jetties := [], routes := [] } }
          { error := some { message := some "quota exceeded" }, candidates := [] }).messages =
        [] ++ [{ text := "hello", isUser := true }, m] ∧
      m.isUser = false ∧
      jsIncludes m.text "quota exceeded" = true ∧
      (Chat.sendMessage
          { messages := [], inputText := "hello", loading := false,
            ferryData := some { jetties := [], routes := [] } }
          { error := some { message := some "quota exceeded" }, candidates := [] }).loading =
        false :=
  ⟨by decide,
    C8_structured_error_surfaces_message
      { messages := [], inputText := "hello", loading := false,
        ferryData := some { jetties := [], routes := [] } }
      { error := some { message := some "quota exceeded" }, candidates := [] }
      (by decide) rfl rfl rfl⟩

/-- C1 counterexample: the token "2pm" of the text ".2pm" is a lowercased,
punctuation-stripped token of length 3 that is neither purely numeric nor
in the vocabulary, yet the retention filter drops it (and it is absent
from the final keyword list, which holds only ".2pm" from the
capitalized-word pass), in both extractor variants. -/
theorem C1_counterexample_digit_initial_token :
    Chat.strippedTokens ".2pm" = ["2pm"] ∧
    isPurelyNumeric "2pm" = false ∧
    Chat.specificTerms.contains "2pm" = false ∧
    Chat.firstPassKeywords ".2pm" = [] ∧
    Chat.getKeywords ".2pm" = [".2pm"] ∧
    LocChat.firstPassKeywords ".2pm" = [] := by
  decide

/-- C1 amended: a lowercased, punctuation-stripped token of length at
least 3 is retained exactly when it appears in the fixed vocabulary OR
JavaScript `parseInt` yields `NaN` on it (it does not parse as a leading
integer), in both extractor variants. -/
theorem C1_amended_retention_rule :
    (∀ text w, w ∈ Chat.firstPassKeywords text ↔
      w ∈ Chat.strippedTokens text ∧
        (w ∈ Chat.specificTerms ∨ jsParseIntIsNaN w = true)) ∧
    (∀ text w, w ∈ LocChat.firstPassKeywords text ↔
      w ∈ LocChat.strippedTokens text ∧
        (w ∈ LocChat.specificTerms ∨ jsParseIntIsNaN w = true)) := by
  constructor
  · intro text w
    simp [Chat.firstPassKeywords, List.mem_filter, List.contains_iff_exists_mem_beq]
  · intro text w
    simp [LocChat.firstPassKeywords, List.mem_filter, List.contains_iff_exists_mem_beq]

/-- C2: for every device location, jetty collection and count, the result
of `findNearestJetties` is the `count`-prefix of a permutation of the
distance-annotated jetties that is sorted ascending by distance and
stable (any already-sorted sublist of the annotated input is still a
sublist of it, so ties keep input order); its length is the requested
count capped by the collection size, and the location-aware flow invokes
it with count 5. -/
theorem C2_findNearestJetties_sorted_capped_stable :
    ∀ (loc : UserLocation) (jetties : List Jetty) (count : Nat),
      ∃ l' : List JettyWithDistance,
        (jetties.map (LocChat.annotateWithDistance loc)).Perm l' ∧
        l'.Pairwise (fun a b => a.distance ≤ b.distance) ∧
        (∀ c : List JettyWithDistance,
          c.Pairwise (fun a b => LocChat.distLE a b = true) →
          c.Sublist (jetties.map (LocChat.annotateWithDistance loc)) → c.Sublist l') ∧
        LocChat.findNearestJetties loc jetties count = l'.take count ∧
        (LocChat.findNearestJetties loc jetties count).length = min count jetties.length ∧
        (∀ data : FerryData, LocChat.handleNearestJettyQuery loc data =
          LocChat.findNearestJetties loc data.jetties 5) := by
  intro loc jetties count
  have htrans : ∀ a b c : JettyWithDistance,
      LocChat.distLE a b → LocChat.distLE b c → LocChat.distLE a c := by
    intro a b c hab hbc
    simp only [LocChat.distLE, decide_eq_true_eq] at hab hbc ⊢
    exact le_trans hab hbc
  have htotal : ∀ a b : JettyWithDistance, LocChat.distLE a b || LocChat.distLE b a := by
    intro a b
    simp only [LocChat.distLE, Bool.or_eq_true, decide_eq_true_eq]
    exact le_total _ _
  refine ⟨(jetties.map (LocChat.annotateWithDistance loc)).mergeSort LocChat.distLE,
    (List.mergeSort_perm _ _).symm, ?_, ?_, rfl, ?_, fun data => rfl⟩
  · exact (List.sorted_mergeSort htrans htotal _).imp
      (by intro a b h; simpa [LocChat.distLE, decide_eq_true_eq] using h)
  · intro c hc hsub
    exact List.sublist_mergeSort htrans htotal hc hsub
  · simp [LocChat.findNearestJetties]

/-- C10: every element returned by `findNearestJetties` originates from
the input list, carries all fields of its originating jetty unchanged,
and its added `distance` field is the computed haversine distance from
the device location to that jetty's coordinates. -/
theorem C10_findNearestJetties_frame (loc : UserLocation) (jetties : List Jetty) (count : Nat)
    (x : JettyWithDistance) (hx : x ∈ LocChat.findNearestJetties loc jetties count) :
    ∃ j, j ∈ jetties ∧ x.base = j ∧
      x.distance = LocChat.calculateDistance loc.latitude loc.longitude
        j.geometry.c1 j.geometry.c0 := by
  simp only [LocChat.findNearestJetties] at hx
  have hx' : x ∈ (jetties.map (LocChat.annotateWithDistance loc)).mergeSort LocChat.distLE :=
    List.take_subset _ _ hx
  rw [List.mem_mergeSort] at hx'
  obtain ⟨j, hj, rfl⟩ := List.mem_map.mp hx'
  exact ⟨j, hj, rfl, rfl⟩

/-- A concrete device location used to instantiate hypotheses of proved
theorems. -/
noncomputable def sampleLocation : UserLocation := { latitude := 0, longitude := 0 }

/-- Witness for C10 at a concrete location and jetty list. -/
theorem C10_findNearestJetties_frame_witness :
    LocChat.annotateWithDistance sampleLocation sampleJetty ∈
      LocChat.findNearestJetties sampleLocation [sampleJetty] 1 ∧
    ∃ j, j ∈ [sampleJetty] ∧
      (LocChat.annotateWithDistance sampleLocation sampleJetty).base = j ∧
      (LocChat.annotateWithDistance sampleLocation sampleJetty).distance =
        LocChat.calculateDistance sampleLocation.latitude sampleLocation.longitude
          j.geometry.c1 j.geometry.c0 := by
  have hmem : LocChat.annotateWithDistance sampleLocation sampleJetty ∈
      LocChat.findNearestJetties sampleLocation [sampleJetty] 1 := by
    simp [LocChat.findNearestJetties]
  exact ⟨hmem, C10_findNearestJetties_frame sampleLocation [sampleJetty] 1 _ hmem⟩

/-- The claim-side operation of C3: joining the extracted keywords with
single spaces. -/
def joinWithSpaces : List String → String
  | [] => ""
  | [k] => k
  | k :: rest => k ++ " " ++ joinWithSpaces rest

/-- C3 counterexample: the extractor maps "To" to the keyword list
["to"] (via the capitalized-word pass), but re-extracting from the
joined string "to" yields the empty list, because the 2-character token
fails the length filter and is no longer capitalized. -/
theorem C3_counterexample_short_capitalized_token :
    Chat.getKeywords "To" = ["to"] ∧
    Chat.getKeywords (joinWithSpaces (Chat.getKeywords "To")) = [] := by
  decide

/-!
Helper lemmas about the JavaScript-primitive models, used for the
amended form of C3.
-/

theorem mem_jsDedupAux : ∀ (l seen : List String) (a : String),
    a ∈ jsDedupAux seen l ↔ a ∈ l ∧ ¬ a ∈ seen
  | [], seen, a => by simp [jsDedupAux]
  | b :: l, seen, a => by
    rw [jsDedupAux]
    split
    next hb =>
      have hb' : b ∈ seen := by simpa using hb
      rw [mem_jsDedupAux l seen a]
      simp only [List.mem_cons]
      constructor
      · exact fun h => ⟨Or.inr h.1, h.2⟩
      · rintro ⟨rfl | h1, h2⟩
        · exact absurd hb' h2
        · exact ⟨h1, h2⟩
    next hb =>
      have hb' : ¬ b ∈ seen := by simpa using hb
      simp only [List.mem_cons, mem_jsDedupAux l (b :: seen) a]
      constructor
      · rintro (rfl | ⟨h1, h2⟩)
        · exact ⟨Or.inl rfl, hb'⟩
        · exact ⟨Or.inr h1, fun hc => h2 (Or.inr hc)⟩
      · rintro ⟨rfl | h1, h2⟩
        · exact Or.inl rfl
        · by_cases hab : a = b
          · exact Or.inl hab
          · exact Or.inr ⟨h1, by simp [hab, h2]⟩

theorem mem_jsDedup (l : List String) (a : String) : a ∈ jsDedup l ↔ a ∈ l := by
  simp [jsDedup, mem_jsDedupAux]

theorem nodup_jsDedupAux : ∀ (l seen : List String), (jsDedupAux seen l).Nodup
  | [], _ => by simp [jsDedupAux]
  | b :: l, seen => by
    rw [jsDedupAux]
    split
    · exact nodup_jsDedupAux l seen
    · refine List.nodup_cons.mpr ⟨?_, nodup_jsDedupAux l (b :: seen)⟩
      intro hb
      rw [mem_jsDedupAux] at hb
      exact hb.2 (List.mem_cons_self b seen)

theorem nodup_jsDedup (l : List String) : (jsDedup l).Nodup := nodup_jsDedupAux l []

theorem takeWhile_append_stop {p : Char → Bool} :
    ∀ (k : List Char), (∀ c ∈ k, p c = true) → ∀ (x : Char), p x = false →
      ∀ (t : List Char), (k ++ x :: t).takeWhile p = k
  | [], _, x, hx, t => by simp [List.takeWhile_cons, hx]
  | c :: k, h, x, hx, t => by
    have hc : p c = true := h c (List.mem_cons_self _ _)
    simp only [List.cons_append, List.takeWhile_cons, hc, if_true]
    rw [takeWhile_append_stop k (fun d hd => h d (List.mem_cons_of_mem _ hd)) x hx t]

theorem takeWhile_all {p : Char → Bool} :
    ∀ (k : List Char), (∀ c ∈ k, p c = true) → k.takeWhile p = k
  | [], _ => rfl
  | c :: k, h => by
    have hc : p c = true := h c (List.mem_cons_self _ _)
    simp only [List.takeWhile_cons, hc, if_true]
    rw [takeWhile_all k (fun d hd => h d (List.mem_cons_of_mem _ hd))]

/-- Character-level counterpart of `joinWithSpaces`. -/
def joinCL : List (List Char) → List Char
  | [] => []
  | [k] => k
  | k :: rest => k ++ ' ' :: joinCL rest

theorem data_joinWithSpaces : ∀ ks : List String,
    (joinWithSpaces ks).data = joinCL (ks.map String.data)
  | [] => rfl
  | [_] => rfl
  | k :: k2 :: ks => by
    show (k ++ " " ++ joinWithSpaces (k2 :: ks)).data = _
    rw [String.data_append, String.data_append, data_joinWithSpaces (k2 :: ks)]
    simp [joinCL]

theorem mem_joinCL : ∀ (L : List (List Char)) (c : Char),
    c ∈ joinCL L → (∃ k ∈ L, c ∈ k) ∨ c.toNat = 32
  | [], _, h => by simp [joinCL] at h
  | [k], c, h => Or.inl ⟨k, by simp, h⟩
  | k :: k2 :: L, c, h => by
    have hj : joinCL (k :: k2 :: L) = k ++ ' ' :: joinCL (k2 :: L) := rfl
    rw [hj] at h
    rcases List.mem_append.mp h with h | h
    · exact Or.inl ⟨k, by simp, h⟩
    · rcases List.mem_cons.mp h with rfl | h
      · exact Or.inr rfl
      · rcases mem_joinCL (k2 :: L) c h with ⟨k', hk', hc⟩ | h
        · exact Or.inl ⟨k', List.mem_cons_of_mem _ hk', hc⟩
        · exact Or.inr h

theorem splitWsFuel_nonws (k : List Char) (hk : ∀ c ∈ k, isWsChar c = false) (fuel : Nat) :
    splitWsFuel (fuel + 1) k = [k] := by
  simp only [splitWsFuel]
  rw [takeWhile_all k (by intro c hc; simp [hk c hc]), List.drop_length]

theorem splitWsFuel_joinCL : ∀ (L : List (List Char)) (fuel : Nat), L ≠ [] →
    (∀ k ∈ L, k ≠ [] ∧ ∀ c ∈ k, isWsChar c = false) →
    (joinCL L).length < fuel →
    splitWsFuel fuel (joinCL L) = L
  | [], _, h, _, _ => absurd rfl h
  | [k], fuel, _, hL, hfuel => by
    cases fuel with
    | zero => exact absurd hfuel (by omega)
    | succ f => exact splitWsFuel_nonws k (hL k (by simp)).2 f
  | k :: k2 :: L', fuel, _, hL, hfuel => by
    cases fuel with
    | zero => exact absurd hfuel (by omega)
    | succ f =>
      have hk := hL k (by simp)
      have hk2 := hL k2 (by simp)
      have hj : joinCL (k :: k2 :: L') = k ++ ' ' :: joinCL (k2 :: L') := rfl
      rw [hj]
      simp only [splitWsFuel]
      rw [takeWhile_append_stop k (by intro c hc; simp [hk.2 c hc]) ' ' (by decide) _,
        List.drop_left]
      obtain ⟨c2, k2', rfl⟩ : ∃ c2 k2', k2 = c2 :: k2' := by
        cases k2 with
        | nil => exact absurd rfl hk2.1
        | cons c2 k2' => exact ⟨c2, k2', rfl⟩
      obtain ⟨T', hT⟩ : ∃ T', joinCL ((c2 :: k2') :: L') = c2 :: T' := by
        cases L' with
        | nil => exact ⟨k2', rfl⟩
        | cons k3 L'' => exact ⟨k2' ++ ' ' :: joinCL (k3 :: L''), rfl⟩
      have hc2 : isWsChar c2 = false := hk2.2 c2 (List.mem_cons_self _ _)
      show k :: splitWsFuel f
          (List.dropWhile isWsChar (' ' :: joinCL ((c2 :: k2') :: L'))) =
        k :: (c2 :: k2') :: L'
      rw [List.dropWhile_cons, if_pos (by decide)]
      rw [hT, List.dropWhile_cons, if_neg (by simp [hc2]), ← hT]
      have hrec : splitWsFuel f (joinCL ((c2 :: k2') :: L')) = (c2 :: k2') :: L' := by
        refine splitWsFuel_joinCL ((c2 :: k2') :: L') f (by simp)
          (fun x hx => hL x (List.mem_cons_of_mem _ hx)) ?_
        have hlen := hfuel
        rw [hj, List.length_append] at hlen
        simp only [List.length_cons] at hlen
        omega
      rw [hrec]

theorem isWsChar_eq_false_of_alnum {c : Char} (h : isLowerAlnum c = true) :
    isWsChar c = false := by
  rw [Bool.eq_false_iff]
  intro hw
  simp only [isLowerAlnum, Bool.or_eq_true, Bool.and_eq_true, decide_eq_true_eq] at h
  simp only [isWsChar, Bool.or_eq_true, decide_eq_true_eq] at hw
  omega

theorem jsToLowerChar_id_of {c : Char} (h : isLowerAlnum c = true ∨ c.toNat = 32) :
    jsToLowerChar c = c := by
  have h' : ¬ (65 ≤ c.toNat ∧ c.toNat ≤ 90) := by
    rcases h with h | h
    · simp only [isLowerAlnum, Bool.or_eq_true, Bool.and_eq_true, decide_eq_true_eq] at h
      omega
    · omega
  simp only [jsToLowerChar]
  rw [if_neg (by simpa using h')]

theorem jsToLower_id_of {s : String} (h : ∀ c ∈ s.data, isLowerAlnum c = true ∨ c.toNat = 32) :
    jsToLower s = s := by
  show (⟨s.data.map jsToLowerChar⟩ : String) = s
  rw [List.map_congr_left (fun c hc => jsToLowerChar_id_of (h c hc)),
    show (fun c : Char => c) = id from rfl, List.map_id]

theorem toNat_charOfNat_valid {n : Nat} (h : n < 55296) : (Char.ofNat n).toNat = n := by
  rw [Char.ofNat, dif_pos (Or.inl h)]
  rfl

theorem jsToUpperChar_id_of_digit {c : Char} (h : 48 ≤ c.toNat ∧ c.toNat ≤ 57) :
    jsToUpperChar c = c := by
  simp only [jsToUpperChar]
  rw [if_neg (by simp only [Bool.and_eq_true, decide_eq_true_eq, not_and]; omega)]

theorem jsToUpperChar_ne_of_lower {c : Char} (h : 97 ≤ c.toNat ∧ c.toNat ≤ 122) :
    (jsToUpperChar c == c) = false := by
  rw [beq_eq_false_iff_ne]
  intro heq
  have htn : (jsToUpperChar c).toNat = c.toNat := by rw [heq]
  rw [jsToUpperChar, if_pos (by simp only [Bool.and_eq_true, decide_eq_true_eq]; omega)] at htn
  rw [toNat_charOfNat_valid (by omega)] at htn
  omega

theorem jsParseIntIsNaN_of_letter_head {w : String} {c0 : Char} {rest : List Char}
    (hw : w.data = c0 :: rest) (h : 97 ≤ c0.toNat ∧ c0.toNat ≤ 122) :
    jsParseIntIsNaN w = true := by
  have hws : isWsChar c0 = false := by
    rw [Bool.eq_false_iff]
    intro hw'
    simp only [isWsChar, Bool.or_eq_true, decide_eq_true_eq] at hw'
    omega
  simp only [jsParseIntIsNaN, hw]
  rw [List.dropWhile_cons, if_neg (by simp [hws])]
  show (if (decide (c0.toNat = 43) || decide (c0.toNat = 45)) = true then
      jsParseIntTail rest else jsParseIntTail (c0 :: rest)) = true
  rw [if_neg (by simp only [Bool.or_eq_true, decide_eq_true_eq]; omega)]
  simp only [jsParseIntTail.eq_def]
  rw [if_neg (by omega)]
  simp only [isDigitChar]
  rw [Bool.not_eq_true', Bool.eq_false_iff]
  intro hd
  simp only [Bool.and_eq_true, decide_eq_true_eq] at hd
  omega

/-- Re-extraction from a joined keyword list recovers exactly the same
keyword set, provided every keyword is purely alphanumeric (lowercase
letters and digits) of length at least 3, the list has no duplicates and
at most 10 entries — all of which hold for extractor outputs consisting
of such tokens. -/
theorem getKeywords_join_of_clean (ks : List String) (hnd : ks.Nodup) (hlen10 : ks.length ≤ 10)
    (hks : ∀ w ∈ ks, 3 ≤ w.length ∧ ∀ c ∈ w.data, isLowerAlnum c = true) :
    ∀ w, w ∈ Chat.getKeywords (joinWithSpaces ks) ↔ w ∈ ks := by
  rcases eq_or_ne ks [] with rfl | hne
  · intro w
    show w ∈ Chat.getKeywords "" ↔ w ∈ ([] : List String)
    rw [show Chat.getKeywords "" = [] from by decide]
  · have hdatane : ∀ w ∈ ks, w.data ≠ [] := by
      intro w hw hnil
      have h3 := (hks w hw).1
      have : w.length = 0 := by
        show w.data.length = 0
        rw [hnil]
        rfl
      omega
    have hsplit : jsSplitWs (joinWithSpaces ks) = ks := by
      have hL : ∀ k ∈ ks.map String.data, k ≠ [] ∧ ∀ c ∈ k, isWsChar c = false := by
        intro k hk
        obtain ⟨w, hwmem, rfl⟩ := List.mem_map.mp hk
        exact ⟨hdatane w hwmem,
          fun c hc => isWsChar_eq_false_of_alnum ((hks w hwmem).2 c hc)⟩
      have hLne : ks.map String.data ≠ [] := by simpa using hne
      simp only [jsSplitWs]
      rw [data_joinWithSpaces]
      rw [splitWsFuel_joinCL (ks.map String.data) _ hLne hL (Nat.lt_succ_self _)]
      rw [List.map_map]
      exact List.map_id ks
    have hlower : jsToLower (joinWithSpaces ks) = joinWithSpaces ks := by
      apply jsToLower_id_of
      intro c hc
      rw [data_joinWithSpaces] at hc
      rcases mem_joinCL _ c hc with ⟨k, hk, hck⟩ | h32
      · obtain ⟨w, hwmem, rfl⟩ := List.mem_map.mp hk
        exact Or.inl ((hks w hwmem).2 c hck)
      · exact Or.inr h32
    have hstripped : Chat.strippedTokens (joinWithSpaces ks) = ks := by
      rw [Chat.strippedTokens, hlower, hsplit]
      have hmapstrip : ks.map stripNonAlnum = ks := by
        conv_rhs => rw [← List.map_id ks]
        refine List.map_congr_left ?_
        intro w hwmem
        show (⟨w.data.filter isLowerAlnum⟩ : String) = w
        rw [List.filter_eq_self.mpr (fun c hc => (hks w hwmem).2 c hc)]
      rw [hmapstrip]
      refine List.filter_eq_self.mpr ?_
      intro w hwmem
      simp only [decide_eq_true_eq]
      have := (hks w hwmem).1
      omega
    have hfirst : Chat.firstPassKeywords (joinWithSpaces ks) =
        ks.filter fun w => Chat.specificTerms.contains w || jsParseIntIsNaN w := by
      rw [Chat.firstPassKeywords, hstripped]
    have hcap : Chat.capitalizedTokens (joinWithSpaces ks) =
        ks.filter fun w => w.length > 1 && firstCharUpperEq w := by
      rw [Chat.capitalizedTokens, hsplit]
      conv_rhs => rw [← List.map_id (ks.filter fun w => w.length > 1 && firstCharUpperEq w)]
      refine List.map_congr_left ?_
      intro w hw
      exact jsToLower_id_of fun c hc => Or.inl ((hks w (List.mem_of_mem_filter hw)).2 c hc)
    have hJmem : ∀ w, w ∈ jsDedup (Chat.firstPassKeywords (joinWithSpaces ks) ++
        Chat.capitalizedTokens (joinWithSpaces ks)) ↔ w ∈ ks := by
      intro w
      rw [mem_jsDedup, List.mem_append, hfirst, hcap]
      constructor
      · rintro (hw | hw) <;> exact List.mem_of_mem_filter hw
      · intro hw
        obtain ⟨c0, rest, hdata⟩ : ∃ c0 rest, w.data = c0 :: rest := by
          cases hdw : w.data with
          | nil => exact absurd hdw (hdatane w hw)
          | cons c0 rest => exact ⟨c0, rest, rfl⟩
        have hc0 : isLowerAlnum c0 = true :=
          (hks w hw).2 c0 (by rw [hdata]; exact List.mem_cons_self _ _)
        simp only [isLowerAlnum, Bool.or_eq_true, Bool.and_eq_true, decide_eq_true_eq] at hc0
        rcases hc0 with hlet | hdig
        · left
          refine List.mem_filter.mpr ⟨hw, ?_⟩
          rw [jsParseIntIsNaN_of_letter_head hdata hlet, Bool.or_true]
        · right
          refine List.mem_filter.mpr ⟨hw, ?_⟩
          have h1 : decide (w.length > 1) = true := by
            simp only [decide_eq_true_eq]
            have := (hks w hw).1
            omega
          have h2 : firstCharUpperEq w = true := by
            rw [firstCharUpperEq, hdata]
            show (jsToUpperChar c0 == c0) = true
            rw [jsToUpperChar_id_of_digit ⟨hdig.1, hdig.2⟩]
            exact beq_self_eq_true c0
          rw [h1, h2]
          rfl
    have hJlen : (jsDedup (Chat.firstPassKeywords (joinWithSpaces ks) ++
        Chat.capitalizedTokens (joinWithSpaces ks))).length ≤ 10 := by
      have hnodup := nodup_jsDedup (Chat.firstPassKeywords (joinWithSpaces ks) ++
        Chat.capitalizedTokens (joinWithSpaces ks))
      have hsubset : jsDedup (Chat.firstPassKeywords (joinWithSpaces ks) ++
          Chat.capitalizedTokens (joinWithSpaces ks)) ⊆ ks := fun w hw => (hJmem w).mp hw
      exact le_trans (List.subperm_of_subset hnodup hsubset).length_le hlen10
    intro w
    rw [Chat.getKeywords, List.take_of_length_le hJlen]
    exact hJmem w

/-- C3 amended: keyword extraction is idempotent on its own output
provided every extracted keyword is purely alphanumeric with length at
least 3 (entries added by the capitalized-word pass that are shorter or
contain punctuation are lost on re-extraction, as the counterexample
shows); under that proviso re-extraction from the space-joined output
yields the same keyword set. -/
theorem C3_amended_idempotent_on_clean_output (text : String)
    (h : ∀ w ∈ Chat.getKeywords text, 3 ≤ w.length ∧ ∀ c ∈ w.data, isLowerAlnum c = true) :
    ∀ w, w ∈ Chat.getKeywords (joinWithSpaces (Chat.getKeywords text)) ↔
      w ∈ Chat.getKeywords text := by
  refine getKeywords_join_of_clean (Chat.getKeywords text) ?_ ?_ h
  · exact (nodup_jsDedup _).sublist (List.take_sublist _ _)
  · exact List.length_take_le _ _

/-- Witness for the amended C3 at a concrete input. -/
theorem C3_amended_idempotent_on_clean_output_witness :
    (∀ w ∈ Chat.getKeywords "lekki fare",
      3 ≤ w.length ∧ ∀ c ∈ w.data, isLowerAlnum c = true) ∧
    (∀ w, w ∈ Chat.getKeywords (joinWithSpaces (Chat.getKeywords "lekki fare")) ↔
      w ∈ Chat.getKeywords "lekki fare") :=
  ⟨by decide, C3_amended_idempotent_on_clean_output "lekki fare" (by decide)⟩


/-- Witness for C2 at a concrete location, jetty list and count. -/
theorem C2_findNearestJetties_sorted_capped_stable_witness :
    ∃ l' : List JettyWithDistance,
      ([sampleJetty].map (LocChat.annotateWithDistance sampleLocation)).Perm l' ∧
      l'.Pairwise (fun a b => a.distance ≤ b.distance) ∧
      (∀ c : List JettyWithDistance,
        c.Pairwise (fun a b => LocChat.distLE a b = true) →
        c.Sublist ([sampleJetty].map (LocChat.annotateWithDistance sampleLocation)) →
        c.Sublist l') ∧
      LocChat.findNearestJetties sampleLocation [sampleJetty] 1 = l'.take 1 ∧
      (LocChat.findNearestJetties sampleLocation [sampleJetty] 1).length =
        min 1 ([sampleJetty] : List Jetty).length ∧
      (∀ data : FerryData, LocChat.handleNearestJettyQuery sampleLocation data =
        LocChat.findNearestJetties sampleLocation data.jetties 5) :=
  C2_findNearestJetties_sorted_capped_stable sampleLocation [sampleJetty] 1
